import Mathlib

/-
Verification of the BookFlow PDF-extraction engine
(src/backend/app/services/pdf_extractor.py) against its specification.

The engine is embedded shallowly: each Python method becomes a Lean
function over explicit data.  Font sizes are modelled as rationals (the
Python code uses floats, but every concrete input used below has exact
dyadic values, so the arithmetic coincides).  The regular expressions of
the source are translated into character-list matchers; each matcher is
written so that its greedy behaviour coincides with Python's backtracking
on the pattern in question (all the patterns involved have disjoint
character classes at the backtracking points, so maximal munch is exact).

Python's `max(set(xs), key=xs.count)` keeps the first element of maximal
count in set-iteration order; this is modelled as a left fold over the
occurrence order of the list (first-seen element among the equally
frequent ones wins), which agrees with CPython on every concrete input
used in this file.
-/

namespace BookFlow

/-- Case folding used to model `re.IGNORECASE` on the characters that occur
in the source's patterns (ASCII letters plus the accented letters of the
Portuguese patterns). -/
def foldc (c : Char) : Char :=
  if c.isUpper then c.toLower
  else if c = 'Á' then 'á' else if c = 'À' then 'à' else if c = 'Â' then 'â'
  else if c = 'Ã' then 'ã' else if c = 'É' then 'é' else if c = 'È' then 'è'
  else if c = 'Ê' then 'ê' else if c = 'Í' then 'í' else if c = 'Ï' then 'ï'
  else if c = 'Ó' then 'ó' else if c = 'Ô' then 'ô' else if c = 'Õ' then 'õ'
  else if c = 'Ö' then 'ö' else if c = 'Ú' then 'ú' else if c = 'Ç' then 'ç'
  else c

/-- Python `str.strip` on a character list. -/
def strip_chars (l : List Char) : List Char :=
  ((l.dropWhile Char.isWhitespace).reverse.dropWhile Char.isWhitespace).reverse

/-- Python `str.strip` on a string. -/
def strip_string (s : String) : String := ⟨strip_chars s.data⟩

/-- Helper for `len(text.split())`: counts maximal runs of non-whitespace. -/
def count_words_aux : Bool → List Char → Nat
  | _, [] => 0
  | inw, c :: cs =>
    if c.isWhitespace then count_words_aux false cs
    else (if inw then 0 else 1) + count_words_aux true cs

/-- `len(text.split())` in Python: the number of whitespace-delimited tokens. -/
def count_words (s : String) : Nat := count_words_aux false s.data

/-- Case-insensitive literal prefix: `dropLit pat s` consumes `pat` from the
front of `s` (comparing case-folded characters) and returns the remainder. -/
def dropLit : List Char → List Char → Option (List Char)
  | [], s => some s
  | _ :: _, [] => none
  | p :: ps, c :: cs => if foldc c = foldc p then dropLit ps cs else none

/-- Pattern `^\d{1,4}$` from `_is_page_number`. -/
def match_pure_number (l : List Char) : Bool :=
  decide (1 ≤ l.length) && decide (l.length ≤ 4) && l.all Char.isDigit

/-- After one of the page-word literals: `\s*\d+` (a full match need not
consume the whole string). -/
def page_num_tail (l : List Char) : Bool :=
  match l.dropWhile Char.isWhitespace with
  | c :: _ => c.isDigit
  | [] => false

/-- Pattern `^(página|page|pág\.?)\s*\d+` with IGNORECASE from
`_is_page_number`.  The three alternatives are tried in order, as the
regex engine does. -/
def match_page_word (l : List Char) : Bool :=
  (match dropLit "página".data l with | some r => page_num_tail r | none => false) ||
  (match dropLit "page".data l with | some r => page_num_tail r | none => false) ||
  (match dropLit "pág".data l with
   | some r => page_num_tail (match r with | '.' :: r2 => r2 | _ => r)
   | none => false)

/-- Pattern `^\d+\s*(de|of|/)\s*\d+$` with IGNORECASE from `_is_page_number`. -/
def match_n_of_m (l : List Char) : Bool :=
  let p := l.span Char.isDigit
  (!p.1.isEmpty) &&
  (let r2 := p.2.dropWhile Char.isWhitespace
   let tail_digits : List Char → Bool := fun r =>
     let r4 := r.dropWhile Char.isWhitespace
     (!r4.isEmpty) && r4.all Char.isDigit
   (match dropLit "de".data r2 with | some r => tail_digits r | none => false) ||
   (match dropLit "of".data r2 with | some r => tail_digits r | none => false) ||
   (match dropLit "/".data r2 with | some r => tail_digits r | none => false))

/-- `_is_page_number`: any of the three footer patterns. -/
def is_page_number_text (l : List Char) : Bool :=
  match_pure_number l || match_page_word l || match_n_of_m l

/-- Character class `[IVXLCDM\d]` under IGNORECASE. -/
def roman_digit_ci (c : Char) : Bool :=
  c.isDigit || (foldc c ∈ ['i', 'v', 'x', 'l', 'c', 'd', 'm'])

/-- The `\s*[IVXLCDM\d]+[:\.\s]` tail shared by the CAPÍTULO/PARTE patterns. -/
def chapter_rest (l : List Char) : Bool :=
  let r := l.dropWhile Char.isWhitespace
  let p := r.span roman_digit_ci
  (!p.1.isEmpty) &&
  (match p.2 with
   | c :: _ => c = ':' || c = '.' || c.isWhitespace
   | [] => false)

/-- Character class `[A-ZÁÀÂÃÉÈÊÍÏÓÔÕÖÚÇ]` under IGNORECASE. -/
def upper_letter_ci (c : Char) : Bool :=
  c.isAlpha ||
  (foldc c ∈ ['á', 'à', 'â', 'ã', 'é', 'è', 'ê', 'í', 'ï', 'ó', 'ô', 'õ', 'ö', 'ú', 'ç'])

/-- Patterns `^\d+\.\s+[A-Z…]` and `^[IVXLCDM]+\.\s+[A-Z…]` share this tail:
a literal dot, at least one whitespace, then a letter of the class. -/
def dot_space_letter (l : List Char) : Bool :=
  match l with
  | '.' :: r =>
    let p := r.span Char.isWhitespace
    (!p.1.isEmpty) && (match p.2 with | c :: _ => upper_letter_ci c | [] => false)
  | _ => false

/-- `CHAPTER_PATTERNS` of the source, matched with IGNORECASE (`re.match`,
anchored at the start, full consumption not required). -/
def is_chapter_pattern (l : List Char) : Bool :=
  -- r'^(?:CAPÍTULO|CHAPTER|CAP\.?)\s*[IVXLCDM\d]+[:\.\s]'
  ((match dropLit "capítulo".data l with | some r => chapter_rest r | none => false) ||
   (match dropLit "chapter".data l with | some r => chapter_rest r | none => false) ||
   (match dropLit "cap".data l with
    | some r => chapter_rest (match r with | '.' :: r2 => r2 | _ => r)
    | none => false)) ||
  -- r'^(?:PARTE|PART)\s*[IVXLCDM\d]+[:\.\s]'
  ((match dropLit "parte".data l with | some r => chapter_rest r | none => false) ||
   (match dropLit "part".data l with | some r => chapter_rest r | none => false)) ||
  -- r'^\d+\.\s+[A-ZÁÀÂÃÉÈÊÍÏÓÔÕÖÚÇ]'
  (let p := l.span Char.isDigit
   (!p.1.isEmpty) && dot_space_letter p.2) ||
  -- r'^[IVXLCDM]+\.\s+[A-ZÁÀÂÃÉÈÊÍÏÓÔÕÖÚÇ]'
  (let p := l.span (fun c => foldc c ∈ ['i', 'v', 'x', 'l', 'c', 'd', 'm'])
   (!p.1.isEmpty) && dot_space_letter p.2)

/-- `_is_quote`: the text starts with one of the quote glyphs of the source
(the source checks the ASCII double quote twice; the duplicate collapses). -/
def is_quote_text (l : List Char) : Bool :=
  match l with
  | c :: _ => c = '"' || c = '«' || c = '—' || c = '–'
  | [] => false

/-- Bullet class `[\•\-\*\◦\▪]` of `_is_list_item`. -/
def bullet_char (c : Char) : Bool :=
  c = '•' || c = '-' || c = '*' || c = '◦' || c = '▪'

/-- Separator class `[\.\)]` of `_is_list_item`. -/
def sep_char (c : Char) : Bool := c = '.' || c = ')'

/-- Requires at least one whitespace character next (`\s+`, full
consumption not required). -/
def ws_next (l : List Char) : Bool :=
  match l with
  | c :: _ => c.isWhitespace
  | [] => false

/-- `_is_list_item`: the four list-marker patterns, each anchored after
optional leading whitespace. -/
def is_list_item_text (l : List Char) : Bool :=
  let r := l.dropWhile Char.isWhitespace
  -- r'^\s*[\•\-\*\◦\▪]\s+'
  (match r with
   | c :: rest => bullet_char c && ws_next rest
   | [] => false) ||
  -- r'^\s*\d+[\.\)]\s+'
  (let p := r.span Char.isDigit
   (!p.1.isEmpty) &&
   (match p.2 with | c :: rest => sep_char c && ws_next rest | [] => false)) ||
  -- r'^\s*[a-zA-Z][\.\)]\s+'
  (match r with
   | c :: s :: rest => c.isAlpha && sep_char s && ws_next rest
   | _ => false) ||
  -- r'^\s*[ivxIVX]+[\.\)]\s+'
  (let p := r.span (fun c => c ∈ ['i', 'v', 'x', 'I', 'V', 'X'])
   (!p.1.isEmpty) &&
   (match p.2 with | c :: rest => sep_char c && ws_next rest | [] => false))

/-- One aggregated input line, as the Line Aggregator hands it to the rest
of the pipeline: the merged text and the dominant font attributes.  (The
span-level majority vote is upstream of everything the claims are about;
the pipeline here starts from the per-line result, as §3 "Line" does.) -/
structure RawLine where
  text : String
  size : ℚ
  bold : Bool
  italic : Bool
deriving DecidableEq, Repr

/-- The document metadata fields the engine consumes (absent keys are the
empty string, as `dict.get(…, "")` yields). -/
structure DocMeta where
  title : String
  author : String
deriving DecidableEq, Repr

/-- `TextBlock` of the source (font name and bbox omitted: no downstream
decision reads them). -/
structure TextBlock where
  text : String
  font_size : ℚ
  is_bold : Bool
  is_italic : Bool
  page_num : Nat
  block_type : String
deriving DecidableEq, Repr

/-- `Chapter` of the source. -/
structure Chapter where
  title : String
  level : Nat
  blocks : List TextBlock
  page_start : Nat
deriving DecidableEq, Repr

/-- `BookContent` of the source (the metadata mapping is kept as the two
fields the engine reads). -/
structure BookContent where
  title : String
  author : String
  chapters : List Chapter
  total_pages : Nat
  word_count : Nat
deriving DecidableEq, Repr

/-- `_extract_page_blocks` at line granularity: strip the merged text and
drop lines that are empty after stripping. -/
def extract_page_blocks (page_num : Nat) (lines : List RawLine) : List TextBlock :=
  lines.filterMap fun ln =>
    let t := strip_string ln.text
    if t = "" then none
    else some ⟨t, ln.size, ln.bold, ln.italic, page_num, "paragraph"⟩

/-- The first pass of `extract`: all blocks of all pages, in order. -/
def aggregate_doc (pages : List (List RawLine)) : List TextBlock :=
  (pages.enum.map fun p => extract_page_blocks p.1 p.2).flatten

/-- Models `max(set(font_sizes), key=font_sizes.count)`: fold over the
candidates keeping the first one whose count is maximal (a later candidate
replaces the current best only on a strictly larger count, as Python's
`max` keeps the earliest maximum; the set-iteration order is modelled by
occurrence order, which agrees with CPython on the inputs used below). -/
def max_by_count (l : List ℚ) : List ℚ → ℚ → ℚ
  | [], best => best
  | c :: cs, best => max_by_count l cs (if l.count best < l.count c then c else best)

/-- The most frequent element of a non-empty list (0 on the empty list,
which the caller rules out). -/
def most_common : List ℚ → ℚ
  | [] => 0
  | x :: xs => max_by_count (x :: xs) xs x

/-- Lines 104–119 of `extract`: collect the positive font sizes and take the
most common one; keep the `__init__` default 12.0 when there is none. -/
def compute_base_font_size (blocks : List TextBlock) : ℚ :=
  let font_sizes := (blocks.map TextBlock.font_size).filter (fun s => decide (0 < s))
  if font_sizes.isEmpty then 12 else most_common font_sizes

/-- `_is_heading`. -/
def is_heading (base : ℚ) (b : TextBlock) : Bool :=
  if b.text.length < 2 || 200 < b.text.length then false
  else if decide (base * 1.2 ≤ b.font_size) then true
  else if b.is_bold && decide (base ≤ b.font_size) then true
  else is_chapter_pattern b.text.data

/-- `_classify_block`: the fixed priority chain footer → heading → quote →
list_item → paragraph.  As in the source, the footer/quote/list checks run
on the stripped text while the heading check reads the block itself. -/
def classify_block (base : ℚ) (b : TextBlock) : String :=
  let t := strip_chars b.text.data
  if is_page_number_text t then "footer"
  else if is_heading base b then "heading"
  else if is_quote_text t then "quote"
  else if is_list_item_text t then "list_item"
  else "paragraph"

/-- `_get_heading_level`. -/
def get_heading_level (base : ℚ) (b : TextBlock) : Nat :=
  let size_ratio := b.font_size / base
  if size_ratio ≥ 2.0 then 1
  else if size_ratio ≥ 1.5 then 2
  else if size_ratio ≥ 1.3 then 3
  else if size_ratio ≥ 1.2 ∨ b.is_bold then 4
  else 5

/-- The loop of `_organize_chapters`: `chs` are the finalized chapters,
`cur` the current-chapter accumulator. -/
def organize_go (base : ℚ) (chs : List Chapter) (cur : Chapter) :
    List TextBlock → List Chapter
  | [] => if cur.blocks.isEmpty then chs else chs ++ [cur]
  | b :: rest =>
    if b.block_type = "footer" then organize_go base chs cur rest
    else if b.block_type = "heading" then
      if get_heading_level base b = 1 ∧ ¬cur.blocks.isEmpty then
        organize_go base (chs ++ [cur]) ⟨b.text, 1, [], b.page_num⟩ rest
      else organize_go base chs { cur with blocks := cur.blocks ++ [b] } rest
    else organize_go base chs { cur with blocks := cur.blocks ++ [b] } rest

/-- `_organize_chapters`, seeded with the synthetic leading chapter. -/
def organize_chapters (base : ℚ) (blocks : List TextBlock) : List Chapter :=
  organize_go base [] ⟨"Início", 1, [], 0⟩ blocks

/-- `_detect_book_title`. -/
def detect_book_title (base : ℚ) (meta : DocMeta) (chapters : List Chapter) : String :=
  if meta.title ≠ "" then meta.title
  else
    match chapters with
    | [] => "Livro sem título"
    | first :: _ =>
      if first.title ≠ "" ∧ first.title ≠ "Início" then first.title
      else
        match (first.blocks.take 5).find?
            (fun b => b.block_type = "heading" && decide (base * 1.5 ≤ b.font_size)) with
        | some b => b.text
        | none => "Livro sem título"

/-- The word count of `extract`: whitespace tokens summed over the blocks
of the final chapter list. -/
def word_count_of (chapters : List Chapter) : Nat :=
  (chapters.map fun ch => (ch.blocks.map fun b => count_words b.text).sum).sum

/-- `html.escape` with its default `quote=True`. -/
def html_escape_char (c : Char) : List Char :=
  if c = '&' then "&amp;".data
  else if c = '<' then "&lt;".data
  else if c = '>' then "&gt;".data
  else if c = '"' then "&quot;".data
  else if c = Char.ofNat 39 then "&#x27;".data
  else [c]

/-- `html.escape` on a string. -/
def html_escape (s : String) : String := ⟨(s.data.map html_escape_char).flatten⟩

/-- The bold/italic wrapping of `_generate_html`. -/
def style_wrap (b : TextBlock) (t : String) : String :=
  if b.is_bold && !b.is_italic then "<strong>" ++ t ++ "</strong>"
  else if b.is_italic && !b.is_bold then "<em>" ++ t ++ "</em>"
  else if b.is_bold && b.is_italic then "<strong><em>" ++ t ++ "</em></strong>"
  else t

/-- `re.sub(r'^\s*[\•\-\*\◦\▪\d]+[\.\)]*\s*', '', text)` of
`_generate_html`: anchored at the start, so either the leading marker run
is removed or (when no bullet/digit follows the leading whitespace) the
text is returned unchanged. -/
def strip_list_marker (s : String) : String :=
  let r1 := s.data.dropWhile Char.isWhitespace
  let p := r1.span (fun c => bullet_char c || c.isDigit)
  if p.1.isEmpty then s
  else ⟨(p.2.dropWhile sep_char).dropWhile Char.isWhitespace⟩

/-- The block loop of `_generate_html` for one chapter; the Bool is the
`current_list` state (the source only ever holds `None` or `"ul"`). -/
def render_blocks (base : ℚ) : Bool → List TextBlock → List String
  | in_list, [] => if in_list then ["</ul>"] else []
  | in_list, b :: rest =>
    let text := style_wrap b (html_escape b.text)
    if b.block_type = "heading" then
      let level := get_heading_level base b
      (if in_list then ["</ul>"] else []) ++
        ["<h" ++ toString level ++ ">" ++ text ++ "</h" ++ toString level ++ ">"] ++
        render_blocks base false rest
    else if b.block_type = "quote" then
      (if in_list then ["</ul>"] else []) ++
        ["<blockquote>" ++ text ++ "</blockquote>"] ++
        render_blocks base false rest
    else if b.block_type = "list_item" then
      (if in_list then [] else ["<ul>"]) ++
        ["<li>" ++ strip_list_marker text ++ "</li>"] ++
        render_blocks base true rest
    else
      (if in_list then ["</ul>"] else []) ++
        ["<p>" ++ text ++ "</p>"] ++
        render_blocks base false rest

/-- The per-chapter part of `_generate_html`: the section opener, the
chapter-title heading (skipped for the untitled leading chapter), the
rendered blocks, the section closer. -/
def chapter_html (base : ℚ) (ch : Chapter) : List String :=
  ["<section class=\"chapter\" data-page=\"" ++ toString ch.page_start ++ "\">"] ++
  (if ch.title ≠ "" ∧ ch.title ≠ "Início" then
    ["<h" ++ toString ch.level ++ " class=\"chapter-title\">" ++ html_escape ch.title ++
      "</h" ++ toString ch.level ++ ">"]
  else []) ++
  render_blocks base false ch.blocks ++
  ["</section>"]

/-- `_generate_html` as the list of parts the source accumulates. -/
def generate_html_parts (base : ℚ) (c : BookContent) : List String :=
  ["<!DOCTYPE html>", "<html lang=\"pt-BR\">", "<head>", "<meta charset=\"UTF-8\">",
   "<title>" ++ html_escape c.title ++ "</title>", "</head>", "<body>",
   "<h1 class=\"book-title\">" ++ html_escape c.title ++ "</h1>"] ++
  (if c.author ≠ "" then ["<p class=\"book-author\">" ++ html_escape c.author ++ "</p>"]
   else []) ++
  (c.chapters.map (chapter_html base)).flatten ++
  ["</body>", "</html>"]

/-- `'\n'.flatten(html_parts)`. -/
def generate_html (base : ℚ) (c : BookContent) : String :=
  String.intercalate "\n" (generate_html_parts base c)

/-- `extract`: the whole pipeline, returning the `BookContent` and the
serialized HTML.  The function is total, as the source raises nothing on
any in-memory document. -/
def extract (pages : List (List RawLine)) (meta : DocMeta) : BookContent × String :=
  let all_blocks := aggregate_doc pages
  let base := compute_base_font_size all_blocks
  let classified := all_blocks.map fun b => { b with block_type := classify_block base b }
  let chapters := organize_chapters base classified
  let title := detect_book_title base meta chapters
  let content : BookContent :=
    ⟨title, meta.author, chapters, pages.length, word_count_of chapters⟩
  (content, generate_html base content)

/-- Modelled from the spec (§4.2) for comparison with the code: the most
frequent positive font size with ties broken by the smallest value. -/
def baseline_spec_smallest (blocks : List TextBlock) : ℚ :=
  let font_sizes := (blocks.map TextBlock.font_size).filter (fun s => decide (0 < s))
  if font_sizes.isEmpty then 12
  else
    let best := font_sizes.foldl (fun acc x =>
      if font_sizes.count x > font_sizes.count acc ∨
         (font_sizes.count x = font_sizes.count acc ∧ x < acc) then x else acc)
      (font_sizes.headI)
    best

/-- Blocks that survive segmentation: everything not classified footer. -/
def retained (l : List TextBlock) : List TextBlock :=
  l.filter fun b => decide (b.block_type ≠ "footer")

/-- Empty document metadata. -/
def meta0 : DocMeta := ⟨"", ""⟩

/-- Scenario B of the spec, instantiated literally: two pages, each a
2×-size chapter line followed by one paragraph line (sizes 24 and 12). -/
def scenB : List (List RawLine) :=
  [[⟨"CAPÍTULO 1", 24, false, false⟩, ⟨"Primeiro parágrafo de texto.", 12, false, false⟩],
   [⟨"CAPÍTULO 2", 24, false, false⟩, ⟨"Segundo parágrafo de texto.", 12, false, false⟩]]

/-- Scenario B adjusted so that the paragraph size is strictly the most
frequent one (an extra paragraph on page 1), making the baseline 12
unambiguously. -/
def scenB2 : List (List RawLine) :=
  [[⟨"CAPÍTULO 1", 24, false, false⟩, ⟨"Primeiro parágrafo de texto.", 12, false, false⟩,
    ⟨"Mais texto aqui.", 12, false, false⟩],
   [⟨"CAPÍTULO 2", 24, false, false⟩, ⟨"Segundo parágrafo de texto.", 12, false, false⟩]]

/-- A document whose only line is the page number 42. -/
def doc42 : List (List RawLine) := [[⟨"42", 12, false, false⟩]]

/-- A two-page document with a zero-length corpus: the only span text is
whitespace, so no line survives aggregation. -/
def docEmptyCorpus : List (List RawLine) := [[⟨"   ", 12, false, false⟩], []]

/-- A document whose heading size 24 and body size 12 occur equally often,
with 24 seen first (as in Scenario B). -/
def c4doc : List (List RawLine) :=
  [[⟨"Título grande", 24, false, false⟩, ⟨"Linha um.", 12, false, false⟩],
   [⟨"Outro título", 24, false, false⟩, ⟨"Linha dois.", 12, false, false⟩]]

/-- The three bullet list blocks of Scenario D, already classified. -/
def dblocks : List TextBlock :=
  [⟨"• item one", 12, false, false, 0, "list_item"⟩,
   ⟨"• item two", 12, false, false, 0, "list_item"⟩,
   ⟨"• item three", 12, false, false, 0, "list_item"⟩]

/-- A book with a single lettered list item, as the classifier accepts it. -/
def contA : BookContent :=
  ⟨"T", "", [⟨"Cap", 1, [⟨"a) item", 12, false, false, 0, "list_item"⟩], 0⟩], 1, 2⟩

/-- A plain paragraph block used in witnesses. -/
def pblock : TextBlock := ⟨"Olá mundo.", 12, false, false, 0, "paragraph"⟩

section CharLemmas

/-- A decimal digit is not an ASCII upper-case letter. -/
theorem digit_not_upper (c : Char) (h : c.isDigit = true) : c.isUpper = false := by
  have e48 : (48 : UInt32).toBitVec.toNat = 48 := rfl
  have e57 : (57 : UInt32).toBitVec.toNat = 57 := rfl
  have e65 : (65 : UInt32).toBitVec.toNat = 65 := rfl
  have e90 : (90 : UInt32).toBitVec.toNat = 90 := rfl
  rw [Bool.eq_false_iff]
  intro hu
  simp only [Char.isDigit, Char.isUpper, Bool.and_eq_true, decide_eq_true_eq,
    UInt32.le_def, BitVec.le_def, e48, e57, e65, e90] at h hu
  omega

/-- An ASCII letter is not a decimal digit. -/
theorem alpha_not_digit (c : Char) (h : c.isAlpha = true) : c.isDigit = false := by
  have e48 : (48 : UInt32).toBitVec.toNat = 48 := rfl
  have e57 : (57 : UInt32).toBitVec.toNat = 57 := rfl
  have e65 : (65 : UInt32).toBitVec.toNat = 65 := rfl
  have e90 : (90 : UInt32).toBitVec.toNat = 90 := rfl
  have e97 : (97 : UInt32).toBitVec.toNat = 97 := rfl
  have e122 : (122 : UInt32).toBitVec.toNat = 122 := rfl
  rw [Bool.eq_false_iff]
  intro hd
  simp only [Char.isAlpha, Char.isUpper, Char.isLower, Char.isDigit,
    Bool.or_eq_true, Bool.and_eq_true, decide_eq_true_eq,
    UInt32.le_def, BitVec.le_def, e48, e57, e65, e90, e97, e122] at h hd
  omega

/-- Case folding fixes decimal digits (a digit is not upper case and is none
of the accented letters the fold handles). -/
theorem foldc_of_digit (c : Char) (h : c.isDigit = true) : foldc c = c := by
  unfold foldc
  rw [if_neg (by simp [digit_not_upper c h])]
  iterate 15 rw [if_neg (by rintro rfl; exact absurd h (by decide))]

/-- A digit does not fold to the letter p. -/
theorem foldc_digit_ne_p (c : Char) (h : c.isDigit = true) : foldc c ≠ 'p' := by
  rw [foldc_of_digit c h]
  rintro rfl
  exact absurd h (by decide)

end CharLemmas

section FooterDisjointness

/-- `^\d{1,4}$` fails when the first character is not a digit. -/
theorem match_pure_number_cons_false (c : Char) (cs : List Char)
    (h : c.isDigit = false) : match_pure_number (c :: cs) = false := by
  simp [match_pure_number, h]

/-- `^\d+\s*(de|of|/)\s*\d+$` fails when the first character is not a digit. -/
theorem match_n_of_m_cons_false (c : Char) (cs : List Char)
    (h : c.isDigit = false) : match_n_of_m (c :: cs) = false := by
  simp [match_n_of_m, List.span_eq_take_drop, List.takeWhile_cons, h]

/-- `^(página|page|pág\.?)\s*\d+` fails when the first character does not
fold to p. -/
theorem match_page_word_cons_false (c : Char) (cs : List Char)
    (h : foldc c ≠ 'p') : match_page_word (c :: cs) = false := by
  have hp : foldc 'p' = 'p' := rfl
  simp [match_page_word, dropLit, hp, h]

/-- No footer pattern matches a text whose first character is neither a
digit nor folds to p. -/
theorem is_page_number_cons_false (c : Char) (cs : List Char)
    (h1 : c.isDigit = false) (h2 : foldc c ≠ 'p') :
    is_page_number_text (c :: cs) = false := by
  simp [is_page_number_text, match_pure_number_cons_false c cs h1,
    match_n_of_m_cons_false c cs h1, match_page_word_cons_false c cs h2]

/-- `^(página|page|pág\.?)\s*\d+` fails when the second character is a list
separator (dot or closing parenthesis): every alternative requires a letter
there. -/
theorem match_page_word_sep_second_false (c s : Char) (cs : List Char)
    (hs : sep_char s = true) : match_page_word (c :: s :: cs) = false := by
  have hs' : s = '.' ∨ s = ')' := by
    simpa [sep_char, decide_eq_true_eq] using hs
  rcases hs' with rfl | rfl
  · have e1 := eq_false (by decide : ¬ (foldc '.' = foldc 'á'))
    have e2 := eq_false (by decide : ¬ (foldc '.' = foldc 'a'))
    simp [match_page_word, dropLit, e1, e2]
  · have e1 := eq_false (by decide : ¬ (foldc ')' = foldc 'á'))
    have e2 := eq_false (by decide : ¬ (foldc ')' = foldc 'a'))
    simp [match_page_word, dropLit, e1, e2]

/-- The head of a list with a non-trivial `takeWhile` satisfies the predicate. -/
theorem head_sat_of_takeWhile_ne_nil {p : Char → Bool} {c : Char} {cs : List Char}
    (h : (c :: cs).takeWhile p ≠ []) : p c = true := by
  cases hp : p c
  · simp [List.takeWhile_cons, hp] at h
  · rfl

/-- A quote-classified text never matches a footer pattern: every quote glyph
is neither a digit nor a letter folding to p. -/
theorem is_quote_not_page_number (l : List Char) (h : is_quote_text l = true) :
    is_page_number_text l = false := by
  cases l with
  | nil => exact absurd h (by decide)
  | cons c cs =>
    have hc : c = '"' ∨ c = '«' ∨ c = '—' ∨ c = '–' := by
      simp [is_quote_text] at h; tauto
    rcases hc with rfl | rfl | rfl | rfl <;>
      exact is_page_number_cons_false _ _ (by decide) (by decide)

/-- A list-item-classified text never matches a footer pattern. -/
theorem is_list_item_not_page_number (l : List Char) (h : is_list_item_text l = true) :
    is_page_number_text l = false := by
  cases l with
  | nil => exact absurd h (by decide)
  | cons c cs =>
    by_cases hw : c.isWhitespace
    · -- leading whitespace: no footer pattern starts with a whitespace char
      have hc : c = ' ' ∨ c = '\t' ∨ c = '\r' ∨ c = '\n' := by
        simp [Char.isWhitespace] at hw; tauto
      rcases hc with rfl | rfl | rfl | rfl <;>
        exact is_page_number_cons_false _ _ (by decide) (by decide)
    · have hw' : c.isWhitespace = false := by simpa using hw
      have hd : (c :: cs).dropWhile Char.isWhitespace = c :: cs := by
        simp [List.dropWhile_cons, hw']
      simp only [is_list_item_text, hd, List.span_eq_take_drop] at h
      simp only [Bool.or_eq_true, Bool.and_eq_true, Bool.not_eq_true',
        List.isEmpty_eq_false] at h
      rcases h with ((h | h) | h) | h
      · -- bullet marker
        have hb : bullet_char c = true := h.1
        have hc : c = '•' ∨ c = '-' ∨ c = '*' ∨ c = '◦' ∨ c = '▪' := by
          simp [bullet_char] at hb; tauto
        rcases hc with rfl | rfl | rfl | rfl | rfl <;>
          exact is_page_number_cons_false _ _ (by decide) (by decide)
      · -- numbered marker: digits then a separator
        have htw : (c :: cs).takeWhile Char.isDigit ≠ [] := by
          intro hnil; rw [hnil] at h; simpa using h.1
        have hcd : c.isDigit = true := head_sat_of_takeWhile_ne_nil htw
        cases hdw : (c :: cs).dropWhile Char.isDigit with
        | nil => rw [hdw] at h; simpa using h.2
        | cons s rest =>
          rw [hdw] at h
          have hsep : sep_char s = true := by
            have := h.2; simp [Bool.and_eq_true] at this; exact this.1
          have hpn : match_pure_number (c :: cs) = false := by
            have hall : (c :: cs).all Char.isDigit = false := by
              rw [Bool.eq_false_iff]
              intro hall
              have hnil : (c :: cs).dropWhile Char.isDigit = [] := by
                rw [List.dropWhile_eq_nil_iff]
                simpa [List.all_eq_true] using hall
              rw [hdw] at hnil; cases hnil
            simp [match_pure_number, hall]
          have hpw : match_page_word (c :: cs) = false :=
            match_page_word_cons_false c cs (foldc_digit_ne_p c hcd)
          have hnm : match_n_of_m (c :: cs) = false := by
            have hs' : s = '.' ∨ s = ')' := by
              simpa [sep_char, decide_eq_true_eq] using hsep
            rcases hs' with rfl | rfl
            · have e1 := eq_false (by decide : ¬ (foldc '.' = foldc 'd'))
              have e2 := eq_false (by decide : ¬ (foldc '.' = foldc 'o'))
              have e3 := eq_false (by decide : ¬ (foldc '.' = foldc '/'))
              simp [match_n_of_m, List.span_eq_take_drop, hdw, List.dropWhile_cons,
                dropLit, e1, e2, e3]
            · have e1 := eq_false (by decide : ¬ (foldc ')' = foldc 'd'))
              have e2 := eq_false (by decide : ¬ (foldc ')' = foldc 'o'))
              have e3 := eq_false (by decide : ¬ (foldc ')' = foldc '/'))
              simp [match_n_of_m, List.span_eq_take_drop, hdw, List.dropWhile_cons,
                dropLit, e1, e2, e3]
          simp [is_page_number_text, hpn, hpw, hnm]
      · -- lettered marker
        cases cs with
        | nil => simp at h
        | cons s rest =>
          simp only [Bool.and_eq_true] at h
          have hca : c.isAlpha = true := h.1.1
          have hsep : sep_char s = true := h.1.2
          have hpn : match_pure_number (c :: s :: rest) = false :=
            match_pure_number_cons_false _ _ (alpha_not_digit c hca)
          have hnm : match_n_of_m (c :: s :: rest) = false :=
            match_n_of_m_cons_false _ _ (alpha_not_digit c hca)
          have hpw : match_page_word (c :: s :: rest) = false :=
            match_page_word_sep_second_false c s rest hsep
          simp [is_page_number_text, hpn, hpw, hnm]
      · -- roman marker
        have htw : (c :: cs).takeWhile (fun c => decide (c ∈ ['i', 'v', 'x', 'I', 'V', 'X'])) ≠ [] := by
          intro hnil; rw [hnil] at h; simpa using h.1
        have hcr := head_sat_of_takeWhile_ne_nil htw
        have hc : c = 'i' ∨ c = 'v' ∨ c = 'x' ∨ c = 'I' ∨ c = 'V' ∨ c = 'X' := by
          simpa using hcr
        rcases hc with rfl | rfl | rfl | rfl | rfl | rfl <;>
          exact is_page_number_cons_false _ _ (by decide) (by decide)

end FooterDisjointness

section MostCommonLemmas

/-- `max_by_count` returns its seed or one of the candidates. -/
theorem max_by_count_mem (l : List ℚ) :
    ∀ (cs : List ℚ) (best : ℚ), max_by_count l cs best = best ∨ max_by_count l cs best ∈ cs := by
  intro cs
  induction cs with
  | nil => intro best; left; rfl
  | cons c cs ih =>
    intro best
    simp only [max_by_count]
    rcases ih (if l.count best < l.count c then c else best) with h | h
    · rw [h]
      split_ifs with hc
      · right; exact List.mem_cons_self c cs
      · left; rfl
    · right; exact List.mem_cons_of_mem _ h

/-- The result of `max_by_count` occurs at least as often as the seed and
as every candidate. -/
theorem max_by_count_count_le (l : List ℚ) :
    ∀ (cs : List ℚ) (best : ℚ),
      l.count best ≤ l.count (max_by_count l cs best) ∧
      ∀ c ∈ cs, l.count c ≤ l.count (max_by_count l cs best) := by
  intro cs
  induction cs with
  | nil => intro best; exact ⟨le_refl _, by simp⟩
  | cons c cs ih =>
    intro best
    simp only [max_by_count]
    obtain ⟨h1, h2⟩ := ih (if l.count best < l.count c then c else best)
    have hbest : l.count best ≤ l.count (if l.count best < l.count c then c else best) := by
      split_ifs with hc
      · exact le_of_lt hc
      · exact le_refl _
    have hcand : l.count c ≤ l.count (if l.count best < l.count c then c else best) := by
      split_ifs with hc
      · exact le_refl _
      · exact le_of_not_lt hc
    refine ⟨le_trans hbest h1, ?_⟩
    intro x hx
    rcases List.mem_cons.mp hx with rfl | hx
    · exact le_trans hcand h1
    · exact h2 x hx

/-- `most_common` of a non-empty list is an element of it. -/
theorem most_common_mem (x : ℚ) (xs : List ℚ) : most_common (x :: xs) ∈ x :: xs := by
  simp only [most_common]
  rcases max_by_count_mem (x :: xs) xs x with h | h
  · rw [h]; exact List.mem_cons_self x xs
  · exact List.mem_cons_of_mem _ h

/-- `most_common` of a non-empty list occurs at least as often as anything. -/
theorem most_common_count_ge (x : ℚ) (xs : List ℚ) (y : ℚ) :
    (x :: xs).count y ≤ (x :: xs).count (most_common (x :: xs)) := by
  by_cases hy : y ∈ x :: xs
  · rcases List.mem_cons.mp hy with rfl | hy
    · exact (max_by_count_count_le (y :: xs) xs y).1
    · exact (max_by_count_count_le (x :: xs) xs x).2 y hy
  · rw [List.count_eq_zero.mpr hy]
    exact Nat.zero_le _

end MostCommonLemmas

section OrganizeLemmas

/-- The segmentation loop never removes already finalized chapters. -/
theorem organize_go_length_le (base : ℚ) :
    ∀ (l : List TextBlock) (chs : List Chapter) (cur : Chapter),
      chs.length ≤ (organize_go base chs cur l).length := by
  intro l
  induction l with
  | nil =>
    intro chs cur
    simp only [organize_go]
    split_ifs <;> simp
  | cons b rest ih =>
    intro chs cur
    simp only [organize_go]
    split_ifs with h1 h2 h3
    · exact ih chs cur
    · calc chs.length ≤ (chs ++ [cur]).length := by simp
        _ ≤ _ := ih (chs ++ [cur]) _
    · exact ih chs _
    · exact ih chs _

/-- If the accumulator is non-empty or some block survives the footer
filter, the loop adds at least one chapter. -/
theorem organize_go_length_pos (base : ℚ) :
    ∀ (l : List TextBlock) (chs : List Chapter) (cur : Chapter),
      cur.blocks ≠ [] ∨ retained l ≠ [] →
      chs.length + 1 ≤ (organize_go base chs cur l).length := by
  intro l
  induction l with
  | nil =>
    intro chs cur h
    have hc : cur.blocks ≠ [] := by
      rcases h with h | h
      · exact h
      · exact absurd rfl h
    simp only [organize_go]
    rw [if_neg (by simpa using hc)]
    simp
  | cons b rest ih =>
    intro chs cur h
    simp only [organize_go]
    split_ifs with h1 h2 h3
    · refine ih chs cur ?_
      rcases h with h | h
      · exact Or.inl h
      · refine Or.inr ?_
        simpa [retained, List.filter_cons, h1] using h
    · calc chs.length + 1 = (chs ++ [cur]).length := by simp
        _ ≤ _ := organize_go_length_le base rest _ _
    · exact ih chs _ (Or.inl (by simp))
    · exact ih chs _ (Or.inl (by simp))

/-- When no block is a level-1 heading, the loop just appends every
retained block to the accumulator and finalizes it once at the end. -/
theorem organize_go_no_lvl1 (base : ℚ) :
    ∀ (l : List TextBlock) (chs : List Chapter) (cur : Chapter),
      (∀ b ∈ l, b.block_type = "heading" → get_heading_level base b ≠ 1) →
      organize_go base chs cur l =
        if cur.blocks ++ retained l = [] then chs
        else chs ++ [{ cur with blocks := cur.blocks ++ retained l }] := by
  intro l
  induction l with
  | nil =>
    intro chs cur _
    simp only [organize_go, retained, List.filter_nil, List.append_nil]
    by_cases h : cur.blocks = []
    · rw [if_pos (by simpa using h), if_pos h]
    · rw [if_neg (by simpa using h), if_neg h]
  | cons b rest ih =>
    intro chs cur hno
    have hrest : ∀ x ∈ rest, x.block_type = "heading" → get_heading_level base x ≠ 1 :=
      fun x hx => hno x (List.mem_cons_of_mem _ hx)
    by_cases h1 : b.block_type = "footer"
    · -- footer block: skipped by the loop and dropped by the filter
      have hr : retained (b :: rest) = retained rest := by
        simp [retained, List.filter_cons, h1]
      simp only [organize_go]
      rw [if_pos h1, hr]
      exact ih chs cur hrest
    · have hr : retained (b :: rest) = b :: retained rest := by
        simp [retained, List.filter_cons, h1]
      by_cases h2 : b.block_type = "heading"
      · -- heading, but never level 1 here: appended like any block
        have hguard : ¬(get_heading_level base b = 1 ∧ ¬cur.blocks.isEmpty) :=
          fun hg => hno b (List.mem_cons_self b rest) h2 hg.1
        simp only [organize_go]
        rw [if_neg h1, if_pos h2, if_neg hguard, ih chs _ hrest, hr]
        simp
      · -- quote, list item or paragraph: appended
        simp only [organize_go]
        rw [if_neg h1, if_neg h2, ih chs _ hrest, hr]
        simp

/-- Chapters produced by the loop contain no footer-classified blocks if the
inputs contain none. -/
theorem organize_go_no_footer (base : ℚ) :
    ∀ (l : List TextBlock) (chs : List Chapter) (cur : Chapter),
      (∀ ch ∈ chs, ∀ b ∈ ch.blocks, b.block_type ≠ "footer") →
      (∀ b ∈ cur.blocks, b.block_type ≠ "footer") →
      ∀ ch ∈ organize_go base chs cur l, ∀ b ∈ ch.blocks, b.block_type ≠ "footer" := by
  intro l
  induction l with
  | nil =>
    intro chs cur hchs hcur
    simp only [organize_go]
    split_ifs with h1
    · exact hchs
    · intro ch hch
      rcases List.mem_append.mp hch with h | h
      · exact hchs ch h
      · rw [List.mem_singleton.mp h]; exact hcur
  | cons b rest ih =>
    intro chs cur hchs hcur
    simp only [organize_go]
    split_ifs with h1 h2 h3
    · exact ih chs cur hchs hcur
    · refine ih _ _ ?_ ?_
      · intro ch hch
        rcases List.mem_append.mp hch with h | h
        · exact hchs ch h
        · rw [List.mem_singleton.mp h]; exact hcur
      · intro x hx
        simp at hx
    · refine ih chs _ hchs ?_
      intro x hx
      rcases List.mem_append.mp hx with h | h
      · exact hcur x h
      · rw [List.mem_singleton.mp h, h2]
        decide
    · refine ih chs _ hchs ?_
      intro x hx
      rcases List.mem_append.mp hx with h | h
      · exact hcur x h
      · rw [List.mem_singleton.mp h]; exact h1

/-- Every chapter the loop produces carries level 1 if the inputs do. -/
theorem organize_go_level_one (base : ℚ) :
    ∀ (l : List TextBlock) (chs : List Chapter) (cur : Chapter),
      (∀ ch ∈ chs, ch.level = 1) → cur.level = 1 →
      ∀ ch ∈ organize_go base chs cur l, ch.level = 1 := by
  intro l
  induction l with
  | nil =>
    intro chs cur hchs hcur
    simp only [organize_go]
    split_ifs with h1
    · exact hchs
    · intro ch hch
      rcases List.mem_append.mp hch with h | h
      · exact hchs ch h
      · rw [List.mem_singleton.mp h]; exact hcur
  | cons b rest ih =>
    intro chs cur hchs hcur
    simp only [organize_go]
    split_ifs with h1 h2 h3
    · exact ih chs cur hchs hcur
    · refine ih _ _ ?_ rfl
      intro ch hch
      rcases List.mem_append.mp hch with h | h
      · exact hchs ch h
      · rw [List.mem_singleton.mp h]; exact hcur
    · exact ih chs _ hchs hcur
    · exact ih chs _ hchs hcur

end OrganizeLemmas

/-- Claim C5: type assignment evaluates the checks in the fixed priority
order footer, heading, quote, list_item, paragraph with first match
winning, and is total (one of the five types always results); in
particular a line matching both the footer pattern and the heading
criteria is classified footer, and a heading-qualifying line beginning
with a quote or list marker is classified heading. -/
theorem C5_classify_priority (base : ℚ) (b : TextBlock) :
    (classify_block base b = "footer" ∨ classify_block base b = "heading" ∨
     classify_block base b = "quote" ∨ classify_block base b = "list_item" ∨
     classify_block base b = "paragraph") ∧
    (is_page_number_text (strip_chars b.text.data) = true → is_heading base b = true →
      classify_block base b = "footer") ∧
    (is_heading base b = true →
      (is_quote_text (strip_chars b.text.data) = true ∨
       is_list_item_text (strip_chars b.text.data) = true) →
      classify_block base b = "heading") := by
  refine ⟨?_, ?_, ?_⟩
  · simp only [classify_block]
    split_ifs <;> simp
  · intro hf _
    simp [classify_block, hf]
  · intro hh hql
    have hf : is_page_number_text (strip_chars b.text.data) = false := by
      rcases hql with hq | hl
      · exact is_quote_not_page_number _ hq
      · exact is_list_item_not_page_number _ hl
    simp [classify_block, hf, hh]

/-- Witness for C5: the page number 42 printed at heading size is
classified footer, and a large line starting with a quote dash is
classified heading. -/
theorem C5_witness :
    classify_block 12 ⟨"42", 24, false, false, 0, "paragraph"⟩ = "footer" ∧
    classify_block 12 ⟨"— Grande Título", 24, false, false, 0, "paragraph"⟩ = "heading" :=
  ⟨(C5_classify_priority 12 ⟨"42", 24, false, false, 0, "paragraph"⟩).2.1
      (by decide) (of_decide_eq_true (by with_unfolding_all rfl)),
   (C5_classify_priority 12 ⟨"— Grande Título", 24, false, false, 0, "paragraph"⟩).2.2
      (of_decide_eq_true (by with_unfolding_all rfl)) (Or.inl (by decide))⟩

/-- Claim C6: a heading's level is fixed by the ratio of its font size to
the baseline through the thresholds 2.0, 1.5, 1.3, 1.2 (with bold rescuing
sub-1.2 ratios to level 4), level 5 otherwise, and level 6 never occurs. -/
theorem C6_heading_level_thresholds (base : ℚ) (b : TextBlock) :
    (b.font_size / base ≥ 2.0 → get_heading_level base b = 1) ∧
    (b.font_size / base ≥ 1.5 → b.font_size / base < 2.0 → get_heading_level base b = 2) ∧
    (b.font_size / base ≥ 1.3 → b.font_size / base < 1.5 → get_heading_level base b = 3) ∧
    ((b.font_size / base ≥ 1.2 ∧ b.font_size / base < 1.3) ∨
      (b.font_size / base < 1.2 ∧ b.is_bold = true) → get_heading_level base b = 4) ∧
    (b.font_size / base < 1.2 → b.is_bold = false → get_heading_level base b = 5) ∧
    get_heading_level base b ≠ 6 := by
  refine ⟨?_, ?_, ?_, ?_, ?_, ?_⟩
  · intro h1
    simp only [get_heading_level]
    rw [if_pos h1]
  · intro h1 h2
    simp only [get_heading_level]
    rw [if_neg (by linarith), if_pos h1]
  · intro h1 h2
    simp only [get_heading_level]
    rw [if_neg (by linarith), if_neg (by linarith), if_pos h1]
  · intro h
    rcases h with ⟨h1, h2⟩ | ⟨h1, h2⟩
    · simp only [get_heading_level]
      rw [if_neg (by norm_num; linarith), if_neg (by norm_num; linarith),
        if_neg (by norm_num; linarith), if_pos (Or.inl h1)]
    · simp only [get_heading_level]
      rw [if_neg (by norm_num; linarith), if_neg (by norm_num; linarith),
        if_neg (by norm_num; linarith), if_pos (Or.inr h2)]
  · intro h1 h2
    simp only [get_heading_level]
    rw [if_neg (by norm_num; linarith), if_neg (by norm_num; linarith),
      if_neg (by norm_num; linarith), if_neg (by simp [h2]; linarith)]
  · simp only [get_heading_level]
    split_ifs <;> simp

/-- Witness for C6: ratio 2 gives level 1, and a bold block at exactly the
baseline (ratio 1 < 1.2) gives level 4. -/
theorem C6_witness :
    get_heading_level 12 ⟨"Título", 24, false, false, 0, "heading"⟩ = 1 ∧
    get_heading_level 12 ⟨"Negrito", 12, true, false, 0, "heading"⟩ = 4 :=
  ⟨(C6_heading_level_thresholds 12 ⟨"Título", 24, false, false, 0, "heading"⟩).1
      (by norm_num),
   (C6_heading_level_thresholds 12 ⟨"Negrito", 12, true, false, 0, "heading"⟩).2.2.2.1
      (Or.inr ⟨by norm_num, rfl⟩)⟩

/-- Claim C7: no chapter ever holds a footer-classified block (footers are
dropped during segmentation and stored nowhere), and the line whose text
is exactly 42 is classified footer no matter what the baseline is. -/
theorem C7_footer_excluded :
    (∀ (base : ℚ) (blocks : List TextBlock) (ch : Chapter) (b : TextBlock),
      ch ∈ organize_chapters base blocks → b ∈ ch.blocks → b.block_type ≠ "footer") ∧
    (∀ base : ℚ, classify_block base ⟨"42", 12, false, false, 0, "paragraph"⟩ = "footer") := by
  constructor
  · intro base blocks ch b hch hb
    exact organize_go_no_footer base blocks [] ⟨"Início", 1, [], 0⟩
      (by simp) (by simp) ch hch b hb
  · intro base
    have h42 : is_page_number_text (strip_chars "42".data) = true := by decide
    simp [classify_block, h42]

/-- Witness for C7: in the one-chapter segmentation of a single paragraph
block, that block is not a footer, and 42 at baseline 12 is a footer. -/
theorem C7_witness :
    pblock.block_type ≠ "footer" ∧
    classify_block 12 ⟨"42", 12, false, false, 0, "paragraph"⟩ = "footer" := by
  have hch : organize_chapters 12 [pblock] = [⟨"Início", 1, [pblock], 0⟩] := by decide
  refine ⟨C7_footer_excluded.1 12 [pblock] ⟨"Início", 1, [pblock], 0⟩ pblock ?_ ?_,
    C7_footer_excluded.2 12⟩
  · rw [hch]; exact List.mem_singleton.mpr rfl
  · exact List.mem_singleton.mpr rfl

/-- Claim C8: the word_count field of the output equals the sum of
whitespace-token counts over exactly the blocks of the final chapter list. -/
theorem C8_word_count (pages : List (List RawLine)) (meta : DocMeta) :
    (extract pages meta).1.word_count =
      ((extract pages meta).1.chapters.map
        (fun ch => (ch.blocks.map fun b => count_words b.text).sum)).sum := rfl

/-- Claim C10: every chapter the segmenter produces has level 1 (the
leading chapter is seeded with level 1 and new chapters open only on
level-1 headings), so the chapter-title element the serializer emits is
always an h1. -/
theorem C10_chapter_level_one :
    (∀ (base : ℚ) (blocks : List TextBlock) (ch : Chapter),
      ch ∈ organize_chapters base blocks → ch.level = 1) ∧
    (∀ (base : ℚ) (ch : Chapter), ch.level = 1 → ch.title ≠ "" → ch.title ≠ "Início" →
      (chapter_html base ch)[1]? =
        some ("<h" ++ "1" ++ " class=\"chapter-title\">" ++ html_escape ch.title ++
          "</h" ++ "1" ++ ">")) := by
  constructor
  · intro base blocks ch hch
    exact organize_go_level_one base blocks [] ⟨"Início", 1, [], 0⟩ (by simp) rfl ch hch
  · intro base ch hlev ht1 ht2
    simp only [chapter_html, hlev]
    rw [if_pos ⟨ht1, ht2⟩]
    simp only [List.cons_append, List.nil_append, List.singleton_append,
      List.getElem?_cons_succ, List.getElem?_cons_zero]
    rfl

/-- Witness for C10: the single chapter of a one-paragraph document has
level 1, and a titled level-1 chapter renders its h1 title element. -/
theorem C10_witness :
    (⟨"Início", 1, [pblock], 0⟩ : Chapter).level = 1 ∧
    (chapter_html 12 ⟨"Capítulo Um", 1, [], 0⟩)[1]? =
      some ("<h" ++ "1" ++ " class=\"chapter-title\">" ++ html_escape "Capítulo Um" ++
        "</h" ++ "1" ++ ">") := by
  have hch : organize_chapters 12 [pblock] = [⟨"Início", 1, [pblock], 0⟩] := by decide
  refine ⟨C10_chapter_level_one.1 12 [pblock] ⟨"Início", 1, [pblock], 0⟩ ?_,
    C10_chapter_level_one.2 12 ⟨"Capítulo Um", 1, [], 0⟩ rfl (by decide) (by decide)⟩
  rw [hch]; exact List.mem_singleton.mpr rfl

/-- Counterexample to claim C1: on the literal Scenario B input the engine
produces a single chapter titled Início, not two chapters titled after the
CAPÍTULO lines (the heading/paragraph sizes tie at two occurrences each
and the tie resolves to the first-seen size 24, so no line is classified
as a heading at all). -/
theorem C1_counterexample :
    (extract scenB meta0).1.chapters.map Chapter.title = ["Início"] ∧
    (extract scenB meta0).1.chapters.length = 1 :=
  ⟨by with_unfolding_all rfl, by with_unfolding_all rfl⟩

/-- Claim C1 as amended: a level-1 heading that arrives while the current
chapter has no blocks is appended to the current chapter as an ordinary
block — the leading chapter keeps its title Início and no new chapter is
opened; consequently, on a two-page input whose baseline is unambiguous
(page 1: CAPÍTULO 1 at 2× baseline plus two paragraphs, page 2:
CAPÍTULO 2 at 2× baseline plus one paragraph) the output is two chapters
titled Início and CAPÍTULO 2, the first holding the level-1 heading block
and two paragraphs, the second one paragraph. -/
theorem C1_theorem :
    (∀ (base : ℚ) (chs : List Chapter) (cur : Chapter) (b : TextBlock)
        (rest : List TextBlock),
      b.block_type = "heading" → get_heading_level base b = 1 → cur.blocks = [] →
      organize_go base chs cur (b :: rest) =
        organize_go base chs { cur with blocks := [b] } rest) ∧
    (extract scenB2 meta0).1.chapters.map
        (fun ch => (ch.title, ch.blocks.map TextBlock.block_type)) =
      [("Início", ["heading", "paragraph", "paragraph"]),
       ("CAPÍTULO 2", ["paragraph"])] := by
  constructor
  · intro base chs cur b rest hb hlvl hcur
    have hfoot : ¬ b.block_type = "footer" := by rw [hb]; decide
    have hguard : ¬ (get_heading_level base b = 1 ∧ ¬ cur.blocks.isEmpty = true) :=
      fun hg => hg.2 (by simp [hcur])
    simp only [organize_go]
    rw [if_neg hfoot, if_pos hb, if_neg hguard, hcur, List.nil_append]
  · with_unfolding_all rfl

/-- Witness for C1: the first CAPÍTULO heading of an empty leading chapter
is folded into it as a block. -/
theorem C1_witness :
    organize_go 12 [] ⟨"Início", 1, [], 0⟩
        [⟨"CAPÍTULO 1", 24, false, false, 0, "heading"⟩] =
      organize_go 12 [] ⟨"Início", 1, [⟨"CAPÍTULO 1", 24, false, false, 0, "heading"⟩], 0⟩ [] :=
  C1_theorem.1 12 [] ⟨"Início", 1, [], 0⟩ ⟨"CAPÍTULO 1", 24, false, false, 0, "heading"⟩ []
    rfl (of_decide_eq_true (by with_unfolding_all rfl)) rfl

/-- Counterexample to claim C2: a two-page document whose only span text is
whitespace (a zero-length corpus) makes extract return a successful, empty
BookContent — zero chapters and zero words — instead of reporting any
"no extractable content" error (the source has no such error path). -/
theorem C2_counterexample :
    (extract docEmptyCorpus meta0).1.chapters = [] ∧
    (extract docEmptyCorpus meta0).1.word_count = 0 ∧
    (extract docEmptyCorpus meta0).1.total_pages = 2 :=
  ⟨by with_unfolding_all rfl, by with_unfolding_all rfl, by with_unfolding_all rfl⟩

/-- Claim C2 as amended: on any input whose aggregation yields no line at
all, extract succeeds and returns an empty BookContent (no chapters, zero
word count); no failure is reported. -/
theorem C2_theorem (pages : List (List RawLine)) (meta : DocMeta)
    (h : aggregate_doc pages = []) :
    (extract pages meta).1.chapters = [] ∧ (extract pages meta).1.word_count = 0 := by
  constructor <;>
    simp [extract, h, organize_chapters, organize_go, word_count_of]

/-- Witness for C2: the whitespace-only document aggregates to nothing. -/
theorem C2_witness :
    (extract docEmptyCorpus meta0).1.chapters = [] ∧
    (extract docEmptyCorpus meta0).1.word_count = 0 :=
  C2_theorem docEmptyCorpus meta0 (by decide)

/-- Counterexample to claim C3: a document whose only line is the page
number 42 (classified footer) yields zero chapters, not at least one. -/
theorem C3_counterexample :
    (extract doc42 meta0).1.chapters = [] ∧
    (extract doc42 meta0).1.total_pages = 1 :=
  ⟨by with_unfolding_all rfl, by with_unfolding_all rfl⟩

/-- Claim C3 as amended: at least one chapter exists whenever at least one
block survives the footer filter; if moreover no block is a level-1
heading, the output is exactly the synthetic leading chapter Início
holding every retained block; and an input with no retained blocks yields
zero chapters. -/
theorem C3_theorem (base : ℚ) (blocks : List TextBlock) :
    (retained blocks ≠ [] → 1 ≤ (organize_chapters base blocks).length) ∧
    ((∀ b ∈ blocks, b.block_type = "heading" → get_heading_level base b ≠ 1) →
      organize_chapters base blocks =
        if retained blocks = [] then []
        else [⟨"Início", 1, retained blocks, 0⟩]) := by
  constructor
  · intro h
    have hlen := organize_go_length_pos base blocks [] ⟨"Início", 1, [], 0⟩ (Or.inr h)
    simpa [organize_chapters] using hlen
  · intro hno
    have heq := organize_go_no_lvl1 base blocks [] ⟨"Início", 1, [], 0⟩ hno
    simp only [organize_chapters]
    rw [heq]
    simp only [List.nil_append]

/-- Witness for C3: one paragraph block gives exactly one chapter. -/
theorem C3_witness :
    1 ≤ (organize_chapters 12 [pblock]).length ∧
    organize_chapters 12 [pblock] = [⟨"Início", 1, [pblock], 0⟩] := by
  constructor
  · exact (C3_theorem 12 [pblock]).1 (by decide)
  · have hno : ∀ b ∈ [pblock], b.block_type = "heading" → get_heading_level 12 b ≠ 1 := by
      intro b hb hh
      rw [List.mem_singleton] at hb
      subst hb
      exact absurd hh (by decide)
    exact ((C3_theorem 12 [pblock]).2 hno).trans (by decide)

/-- Counterexample to claim C4: with heading size 24 and body size 12 each
occurring twice and 24 seen first, the engine's baseline is 24 while the
smallest-of-the-most-frequent rule stated by the spec yields 12. -/
theorem C4_counterexample :
    compute_base_font_size (aggregate_doc c4doc) = 24 ∧
    baseline_spec_smallest (aggregate_doc c4doc) = 12 ∧
    compute_base_font_size (aggregate_doc c4doc) ≠
      baseline_spec_smallest (aggregate_doc c4doc) :=
  ⟨by with_unfolding_all rfl, by with_unfolding_all rfl,
   of_decide_eq_true (by with_unfolding_all rfl)⟩

/-- Claim C4 as amended: the baseline is the fixed default 12 when no line
has a positive font size, and otherwise it is one of the positive font
sizes and occurs at least as often as every other value — but ties are
resolved by Python's set-iteration order (first-seen wins here), not by
the smallest value. -/
theorem C4_theorem (blocks : List TextBlock) :
    ((blocks.map TextBlock.font_size).filter (fun s => decide (0 < s)) = [] →
      compute_base_font_size blocks = 12) ∧
    (∀ (x : ℚ) (xs : List ℚ),
      (blocks.map TextBlock.font_size).filter (fun s => decide (0 < s)) = x :: xs →
      compute_base_font_size blocks ∈ x :: xs ∧
      ∀ y : ℚ, (x :: xs).count y ≤ (x :: xs).count (compute_base_font_size blocks)) := by
  constructor
  · intro h
    simp [compute_base_font_size, h]
  · intro x xs h
    have heq : compute_base_font_size blocks = most_common (x :: xs) := by
      simp [compute_base_font_size, h]
    rw [heq]
    exact ⟨most_common_mem x xs, fun y => most_common_count_ge x xs y⟩

/-- Witness for C4: an empty corpus keeps the default baseline 12, and the
tie document's baseline is one of its font sizes. -/
theorem C4_witness :
    compute_base_font_size (aggregate_doc docEmptyCorpus) = 12 ∧
    compute_base_font_size (aggregate_doc c4doc) ∈ ((24 : ℚ) :: [12, 24, 12]) :=
  ⟨(C4_theorem (aggregate_doc docEmptyCorpus)).1 (by decide),
   ((C4_theorem (aggregate_doc c4doc)).2 24 [12, 24, 12]
      (by with_unfolding_all rfl)).1⟩

/-- Counterexample to claim C9: the lettered marker of "a) item" is
accepted by the classifier's list pattern but the serializer's stripping
regex (bullets and digits only) leaves it in place, so the rendered list
item keeps its marker. -/
theorem C9_counterexample :
    is_list_item_text (strip_chars "a) item".data) = true ∧
    strip_list_marker "a) item" = "a) item" ∧
    "<li>a) item</li>" ∈ generate_html_parts 12 contA :=
  ⟨by decide, by decide, of_decide_eq_true (by with_unfolding_all rfl)⟩

/-- Consecutive list items render as the body of one list. -/
theorem render_blocks_all_list_aux (base : ℚ) :
    ∀ bs : List TextBlock, (∀ b ∈ bs, b.block_type = "list_item") →
      render_blocks base true bs =
        (bs.map fun b =>
          "<li>" ++ strip_list_marker (style_wrap b (html_escape b.text)) ++ "</li>") ++
        ["</ul>"] := by
  intro bs
  induction bs with
  | nil => intro _; rfl
  | cons b rest ih =>
    intro h
    have hb : b.block_type = "list_item" := h b (List.mem_cons_self b rest)
    have h1 : ¬ b.block_type = "heading" := by rw [hb]; decide
    have h2 : ¬ b.block_type = "quote" := by rw [hb]; decide
    simp only [render_blocks]
    rw [if_neg h1, if_neg h2, if_pos hb,
      ih (fun x hx => h x (List.mem_cons_of_mem _ hx))]
    simp

/-- Claim C9 as amended: consecutive list_item blocks are emitted as one
ul element with one li per block, and a non-list block first closes an
open list; but the marker stripping uses a narrower pattern than
classification — bullet glyphs and digit runs are removed while lettered
markers (accepted by the classifier) are left in the rendered text. -/
theorem C9_theorem :
    (∀ (base : ℚ) (b : TextBlock) (bs : List TextBlock),
      (∀ x ∈ b :: bs, x.block_type = "list_item") →
      render_blocks base false (b :: bs) =
        "<ul>" ::
        ((b :: bs).map fun x =>
          "<li>" ++ strip_list_marker (style_wrap x (html_escape x.text)) ++ "</li>") ++
        ["</ul>"]) ∧
    (∀ (base : ℚ) (b : TextBlock) (rest : List TextBlock),
      b.block_type ≠ "list_item" →
      (render_blocks base true (b :: rest)).head? = some "</ul>") ∧
    strip_list_marker "• item one" = "item one" ∧
    strip_list_marker "a) item" = "a) item" := by
  refine ⟨?_, ?_, by decide, by decide⟩
  · intro base b bs h
    have hb : b.block_type = "list_item" := h b (List.mem_cons_self b bs)
    have h1 : ¬ b.block_type = "heading" := by rw [hb]; decide
    have h2 : ¬ b.block_type = "quote" := by rw [hb]; decide
    simp only [render_blocks]
    rw [if_neg h1, if_neg h2, if_pos hb,
      render_blocks_all_list_aux base bs (fun x hx => h x (List.mem_cons_of_mem _ hx))]
    simp
  · intro base b rest hb
    by_cases h1 : b.block_type = "heading"
    · simp only [render_blocks]
      rw [if_pos h1]
      rfl
    · by_cases h2 : b.block_type = "quote"
      · simp only [render_blocks]
        rw [if_neg h1, if_pos h2]
        rfl
      · simp only [render_blocks]
        rw [if_neg h1, if_neg h2, if_neg hb]
        rfl

/-- Witness for C9: Scenario D renders as one ul with three li elements,
bullets stripped. -/
theorem C9_witness :
    render_blocks 12 false dblocks =
      ["<ul>", "<li>item one</li>", "<li>item two</li>", "<li>item three</li>", "</ul>"] := by
  have h := C9_theorem.1 12 ⟨"• item one", 12, false, false, 0, "list_item"⟩
    [⟨"• item two", 12, false, false, 0, "list_item"⟩,
     ⟨"• item three", 12, false, false, 0, "list_item"⟩]
    (by decide)
  exact h.trans (by decide)

end BookFlow
